import Mathlib

/-
Verification of the hyperdiv frame system (src/hyperdiv/frame.py).

A shallow embedding: each frame class becomes a family of Lean
functions over an explicit state-store value; Python exceptions become
the `Except Err` monad; Python sets become `Finset`; effects on
external collaborators (the outgoing-diff tracker, the cross-context
mutation queue, the event dispatcher) become explicit lists of calls
returned by the embedded methods.
-/

namespace Hyperdiv

/-- Entity keys identifying a stateful unit. -/
abbrev Key := Nat

/-- Property names, unique within a unit. -/
abbrev PropName := Nat

/-- A (key, prop_name) pair, the identity of a state property. -/
abbrev KP := Key × PropName

/-- Property values. The frame code is agnostic in the value type; we
use natural numbers so that everything is decidable. -/
abbrev Value := Nat

/-- Error taxonomy, following the distinct raise sites of frame.py:
`NoActiveFrame` and `WrongFrame` are the two RuntimeErrors of
Frame.current; `IllegalMutation` and `IllegalReset` the ValueErrors of
the legality guards; `UnknownProperty` the KeyError of the state
store; `AccessDenied` the generic Exception of the closed frames. -/
inductive Err where
  | NoActiveFrame
  | WrongFrame
  | IllegalMutation
  | IllegalReset
  | UnknownProperty
  | AccessDenied
deriving DecidableEq, Repr

/-- The descriptor of a property, with the two flags the frame code
inspects, plus its own identity (the Python prop object knows its key
and name, which UIUpdatesFrame hands to the diff tracker). -/
structure PropDesc where
  key : Key
  name : PropName
  is_event_prop : Bool
  backend_immutable : Bool
deriving DecidableEq, Repr

/-- One entry of the state store: descriptor, current value, and the
default value that a reset restores. -/
structure PropEntry where
  desc : PropDesc
  value : Value
  defaultValue : Value
deriving DecidableEq, Repr

/-- The state store as a list of property entries, each identified by
its descriptor identity. -/
abbrev StateStore := List PropEntry

/-- The Python return value of a state operation: an explicit `None`
for methods that fall off the end without a return statement, or a
boolean. -/
inductive RetVal where
  | none
  | bool (b : Bool)
deriving DecidableEq, Repr

/-- Python truthiness of a return value, as tested by `if updated:`. -/
def RetVal.truthy : RetVal → Bool
  | .none => false
  | .bool b => b

namespace StateStore

/-- Find the entry of a (key, prop_name) pair. -/
def lookupEntry (s : StateStore) (k : Key) (p : PropName) : Option PropEntry :=
  s.find? fun e => e.desc.key = k && e.desc.name = p

/-- Modelled from the spec: `state.get_prop(key, prop)` of the state
store (whose module is not under src/) returns the property descriptor
and fails with `UnknownProperty` (a KeyError) when the key or property
does not exist. -/
def get_prop (s : StateStore) (k : Key) (p : PropName) : Except Err PropDesc :=
  match lookupEntry s k p with
  | Option.none => Except.error Err.UnknownProperty
  | Option.some e => Except.ok e.desc

/-- Modelled from the spec: `state._get(key, prop)` reads the current
value of the property. -/
def _get (s : StateStore) (k : Key) (p : PropName) : Except Err Value :=
  match lookupEntry s k p with
  | Option.none => Except.error Err.UnknownProperty
  | Option.some e => Except.ok e.value

/-- Overwrite the value of a property in the store. -/
def setValue (s : StateStore) (k : Key) (p : PropName) (v : Value) : StateStore :=
  s.map fun e =>
    if e.desc.key = k && e.desc.name = p then { e with value := v } else e

/-- Modelled from the spec: `state._update(key, prop, value)` writes
the value and returns whether a change actually occurred, i.e. whether
the new value differed from the current one. -/
def _update (s : StateStore) (k : Key) (p : PropName) (v : Value) :
    Except Err (Bool × StateStore) :=
  match lookupEntry s k p with
  | Option.none => Except.error Err.UnknownProperty
  | Option.some e => Except.ok (decide (e.value ≠ v), setValue s k p v)

/-- Modelled from the spec: `state._reset(key, prop)` restores the
default value of the property and returns whether that changed it. -/
def _reset (s : StateStore) (k : Key) (p : PropName) :
    Except Err (Bool × StateStore) :=
  match lookupEntry s k p with
  | Option.none => Except.error Err.UnknownProperty
  | Option.some e =>
      Except.ok (decide (e.value ≠ e.defaultValue), setValue s k p e.defaultValue)

/-- Modelled from the spec: `state.has_prop(key, prop)` is a pure
membership test. -/
def has_prop (s : StateStore) (k : Key) (p : PropName) : Bool :=
  (lookupEntry s k p).isSome

/-- Modelled from the spec: `state.get_props(key)` returns the
descriptors registered under the key. -/
def get_props (s : StateStore) (k : Key) : List PropDesc :=
  (s.filter fun e => e.desc.key = k).map PropEntry.desc

/-- Modelled from the spec: `state.init_props(key, props_with_values)`
registers fresh entries in the store. -/
def init_props (s : StateStore) (entries : List PropEntry) : StateStore :=
  s ++ entries

end StateStore

/-! ## The frame hierarchy and the context-local current-frame slot -/

/-- The frame classes of frame.py. `frame` and `stateAccess` are the
two abstract bases; the remaining five are the concrete variants. The
same type serves as the runtime kind of a frame instance and as the
class argument of the `current` lookup. -/
inductive FrameClass where
  | frame
  | stateAccess
  | appRunner
  | task
  | uiUpdates
  | resetUIEvents
  | render
deriving DecidableEq, Repr

/-- The Python subclass test `isinstance(obj_of_kind_k, cls)`, encoding
the hierarchy Frame > StateAccessFrame > the five variants. -/
def isinstance (k : FrameClass) (cls : FrameClass) : Bool :=
  match cls with
  | .frame => true
  | .stateAccess => k != .frame
  | c => k == c

/-- A frame instance as far as the enter/exit/current protocol is
concerned: its runtime class and an identity. -/
structure Frame where
  kind : FrameClass
  id : Nat
deriving DecidableEq, Repr

/-- The context-local slot `Frame._current_frame`: at most one current
frame per execution context. -/
abbrev Slot := Option Frame

/-- The token returned by ContextVar.set, capturing the previous slot
contents. -/
abbrev Token := Option Frame

/-- Frame.__enter__ : installs self as current via ContextVar.set and
keeps the token of the previous value. -/
def Frame.enter (f : Frame) (slot : Slot) : Slot × Token :=
  (Option.some f, slot)

/-- Frame.__exit__ : ContextVar.reset with the saved token restores the
previous slot contents. -/
def Frame.exitFrame (token : Token) (_slot : Slot) : Slot :=
  token

/-- Frame.current : fails with NoActiveFrame when the slot is empty,
with WrongFrame when the active frame is not an instance of the
requested class, and otherwise returns the active frame unchanged. -/
def Frame.current (cls : FrameClass) (slot : Slot) : Except Err Frame :=
  match slot with
  | Option.none => Except.error Err.NoActiveFrame
  | Option.some f =>
      if isinstance f.kind cls then Except.ok f else Except.error Err.WrongFrame

/-- The `with frame:` bracket of Python: enter, run the body (whose
outcome may be a value or a propagating exception), and exit on every
path. The body sees the slot with the frame installed; the bracket
returns the body outcome together with the slot after exit. -/
def withFrame {E A : Type} (f : Frame) (slot : Slot) (body : Slot → Except E A) :
    Except E A × Slot :=
  let st := f.enter slot
  let r := body st.1
  (r, Frame.exitFrame st.2 st.1)

/-! ## StateAccessFrame : the base read/write/reset contract -/

namespace StateAccessFrame

/-- StateAccessFrame.get_state : pass-through to state._get. -/
def get_state (s : StateStore) (k : Key) (p : PropName) : Except Err Value :=
  StateStore._get s k p

/-- StateAccessFrame.update_state : looks up the descriptor, rejects
event props and backend-immutable props with IllegalMutation (a
ValueError), otherwise delegates to state._update and returns its
boolean. -/
def update_state (s : StateStore) (k : Key) (p : PropName) (v : Value) :
    Except Err (RetVal × StateStore) := do
  let prop ← StateStore.get_prop s k p
  if prop.is_event_prop || prop.backend_immutable then
    Except.error Err.IllegalMutation
  else do
    let r ← StateStore._update s k p v
    Except.ok (RetVal.bool r.1, r.2)

/-- StateAccessFrame.reset_state : looks up the descriptor, rejects
event props with IllegalReset (a ValueError), otherwise delegates to
state._reset and returns its boolean. -/
def reset_state (s : StateStore) (k : Key) (p : PropName) :
    Except Err (RetVal × StateStore) := do
  let prop ← StateStore.get_prop s k p
  if prop.is_event_prop then
    Except.error Err.IllegalReset
  else do
    let r ← StateStore._reset s k p
    Except.ok (RetVal.bool r.1, r.2)

/-- StateAccessFrame.has_prop : pass-through. -/
def has_prop (s : StateStore) (k : Key) (p : PropName) : Except Err Bool :=
  Except.ok (StateStore.has_prop s k p)

/-- StateAccessFrame.get_props : pass-through. -/
def get_props (s : StateStore) (k : Key) : Except Err (List PropDesc) :=
  Except.ok (StateStore.get_props s k)

/-- StateAccessFrame.init_props : pass-through. -/
def init_props (s : StateStore) (entries : List PropEntry) :
    Except Err StateStore :=
  Except.ok (StateStore.init_props s entries)

/-- StateAccessFrame.trigger_event : looks up the descriptor and asks
the runner to process the event; the returned list records the calls
made on the runner. -/
def trigger_event (s : StateStore) (k : Key) (p : PropName) (v : Value) :
    Except Err (List (PropDesc × Value)) := do
  let prop ← StateStore.get_prop s k p
  Except.ok [(prop, v)]

end StateAccessFrame

/-! ## AppRunnerFrame : the application-logic phase -/

/-- The per-run bookkeeping of AppRunnerFrame: the inherited previous
frame mutations, read dependencies, and mutations, all sets of
(key, prop_name) pairs. -/
structure AppRunnerFrame where
  prev_frame_mutations : Finset KP
  deps : Finset KP
  mutations : Finset KP
deriving DecidableEq

namespace AppRunnerFrame

/-- AppRunnerFrame.__init__ with the given prev_frame_mutations (an
absent argument defaults to the empty set). -/
def init (prev : Finset KP) : AppRunnerFrame :=
  { prev_frame_mutations := prev, deps := ∅, mutations := ∅ }

/-- AppRunnerFrame.get_state : reads through the base frame and records
the pair into deps. -/
def get_state (f : AppRunnerFrame) (s : StateStore) (k : Key) (p : PropName) :
    Except Err (Value × AppRunnerFrame) := do
  let v ← StateAccessFrame.get_state s k p
  Except.ok (v, { f with deps := insert (k, p) f.deps })

/-- AppRunnerFrame.update_state : delegates to the base frame and, when
the store reports a change, records the pair into mutations. The
override has no return statement, so it returns None. -/
def update_state (f : AppRunnerFrame) (s : StateStore) (k : Key) (p : PropName)
    (v : Value) : Except Err (RetVal × AppRunnerFrame × StateStore) := do
  let r ← StateAccessFrame.update_state s k p v
  let f' := if r.1.truthy then { f with mutations := insert (k, p) f.mutations } else f
  Except.ok (RetVal.none, f', r.2)

/-- AppRunnerFrame.reset_state : delegates to the base frame and, when
the store reports a change, records the pair into mutations; returns
None. -/
def reset_state (f : AppRunnerFrame) (s : StateStore) (k : Key) (p : PropName) :
    Except Err (RetVal × AppRunnerFrame × StateStore) := do
  let r ← StateAccessFrame.reset_state s k p
  let f' := if r.1.truthy then { f with mutations := insert (k, p) f.mutations } else f
  Except.ok (RetVal.none, f', r.2)

/-- AppRunnerFrame.filter_dirty_deps : the union of this run's
mutations with the previous frame's, intersected with the given
dependency set. -/
def filter_dirty_deps (f : AppRunnerFrame) (deps : Finset KP) : Finset KP :=
  (f.mutations ∪ f.prev_frame_mutations) ∩ deps

/-- AppRunnerFrame.deps_are_dirty : whether filter_dirty_deps returns a
non-empty set (Python: len(...) > 0). -/
def deps_are_dirty (f : AppRunnerFrame) (deps : Finset KP) : Bool :=
  decide (0 < (f.filter_dirty_deps deps).card)

end AppRunnerFrame

/-! ## TaskFrame : the background-task phase -/

namespace TaskFrame

/-- TaskFrame.update_state : delegates to the base frame and, when the
store reports a change, calls enqueue_task_mutations with the single
pair; the third component lists the enqueue calls made, each with its
payload. Returns None. -/
def update_state (s : StateStore) (k : Key) (p : PropName) (v : Value) :
    Except Err (RetVal × StateStore × List (List KP)) := do
  let r ← StateAccessFrame.update_state s k p v
  Except.ok (RetVal.none, r.2, if r.1.truthy then [[(k, p)]] else [])

/-- TaskFrame.reset_state : delegates to the base frame and, when the
store reports a change, calls enqueue_task_mutations with the single
pair; returns None. -/
def reset_state (s : StateStore) (k : Key) (p : PropName) :
    Except Err (RetVal × StateStore × List (List KP)) := do
  let r ← StateAccessFrame.reset_state s k p
  Except.ok (RetVal.none, r.2, if r.1.truthy then [[(k, p)]] else [])

end TaskFrame

/-! ## UIUpdatesFrame : the inbound-update phase -/

/-- The bookkeeping of UIUpdatesFrame: mutations and the subset of
event mutations. -/
structure UIUpdatesFrame where
  mutations : Finset KP
  event_mutations : Finset KP
deriving DecidableEq

namespace UIUpdatesFrame

/-- UIUpdatesFrame.__init__. -/
def init : UIUpdatesFrame :=
  { mutations := ∅, event_mutations := ∅ }

/-- UIUpdatesFrame.update_state : looks up the descriptor; a KeyError
(nonexistent key) is logged and swallowed, returning with nothing
changed. Otherwise delegates directly to state._update (no legality
check); on an actual change records the pair into mutations, into
event_mutations when the property is an event prop, and pushes the
descriptor to ui_prop_state.set_prop_value — the final list records
those push calls. Returns None. -/
def update_state (f : UIUpdatesFrame) (s : StateStore) (k : Key) (p : PropName)
    (v : Value) : Except Err (UIUpdatesFrame × StateStore × List PropDesc) :=
  match StateStore.get_prop s k p with
  | Except.error _ => Except.ok (f, s, [])
  | Except.ok prop =>
    match StateStore._update s k p v with
    | Except.error e => Except.error e
    | Except.ok (updated, s') =>
      if updated then
        Except.ok
          ({ mutations := insert (k, p) f.mutations,
             event_mutations :=
               if prop.is_event_prop then insert (k, p) f.event_mutations
               else f.event_mutations },
           s', [prop])
      else Except.ok (f, s', [])

/-- UIUpdatesFrame.reset_state : looks up the descriptor, propagating
the KeyError of a nonexistent key; delegates directly to state._reset
(no legality check) and does the same recording and pushing as
update_state. Returns None. -/
def reset_state (f : UIUpdatesFrame) (s : StateStore) (k : Key) (p : PropName) :
    Except Err (UIUpdatesFrame × StateStore × List PropDesc) := do
  let prop ← StateStore.get_prop s k p
  let r ← StateStore._reset s k p
  if r.1 then
    Except.ok
      ({ mutations := insert (k, p) f.mutations,
         event_mutations :=
           if prop.is_event_prop then insert (k, p) f.event_mutations
           else f.event_mutations },
       r.2, [prop])
  else Except.ok (f, r.2, [])

/-- UIUpdatesFrame.trigger_event : always raises. -/
def trigger_event (_prop : PropDesc) (_v : Value) : Except Err Unit :=
  Except.error Err.AccessDenied

end UIUpdatesFrame

/-! ## ResetUIEventsFrame : the event-reset phase -/

namespace ResetUIEventsFrame

/-- ResetUIEventsFrame.get_state : always raises. -/
def get_state (_s : StateStore) (_k : Key) (_p : PropName) : Except Err Value :=
  Except.error Err.AccessDenied

/-- ResetUIEventsFrame.init_props : always raises. -/
def init_props (_s : StateStore) (_entries : List PropEntry) :
    Except Err StateStore :=
  Except.error Err.AccessDenied

/-- ResetUIEventsFrame.has_prop : always raises. -/
def has_prop (_s : StateStore) (_k : Key) (_p : PropName) : Except Err Bool :=
  Except.error Err.AccessDenied

/-- ResetUIEventsFrame.update_state : always raises. -/
def update_state (_s : StateStore) (_k : Key) (_p : PropName) (_v : Value) :
    Except Err (RetVal × StateStore) :=
  Except.error Err.AccessDenied

/-- ResetUIEventsFrame.get_props : always raises. -/
def get_props (_s : StateStore) (_k : Key) : Except Err (List PropDesc) :=
  Except.error Err.AccessDenied

/-- ResetUIEventsFrame.trigger_event : always raises. -/
def trigger_event (_prop : PropDesc) (_v : Value) : Except Err Unit :=
  Except.error Err.AccessDenied

/-- ResetUIEventsFrame.reset_state : rejects non-event props with
IllegalReset (a ValueError) and otherwise delegates to state._reset,
discarding its boolean (no return statement, so None). -/
def reset_state (s : StateStore) (k : Key) (p : PropName) :
    Except Err (RetVal × StateStore) := do
  let prop ← StateStore.get_prop s k p
  if !prop.is_event_prop then
    Except.error Err.IllegalReset
  else do
    let r ← StateStore._reset s k p
    Except.ok (RetVal.none, r.2)

end ResetUIEventsFrame

/-! ## RenderFrame : the render phase -/

namespace RenderFrame

/-- RenderFrame.get_state : always raises. -/
def get_state (_s : StateStore) (_k : Key) (_p : PropName) : Except Err Value :=
  Except.error Err.AccessDenied

/-- RenderFrame.update_state : always raises. -/
def update_state (_s : StateStore) (_k : Key) (_p : PropName) (_v : Value) :
    Except Err (RetVal × StateStore) :=
  Except.error Err.AccessDenied

/-- RenderFrame.reset_state : always raises. -/
def reset_state (_s : StateStore) (_k : Key) (_p : PropName) :
    Except Err (RetVal × StateStore) :=
  Except.error Err.AccessDenied

/-- RenderFrame.trigger_event : always raises. -/
def trigger_event (_prop : PropDesc) (_v : Value) : Except Err Unit :=
  Except.error Err.AccessDenied

/-- RenderFrame.has_prop is not overridden in the source: it is
inherited from StateAccessFrame and passes through to the store. -/
def has_prop (s : StateStore) (k : Key) (p : PropName) : Except Err Bool :=
  StateAccessFrame.has_prop s k p

/-- RenderFrame.get_props is not overridden in the source: inherited
pass-through. -/
def get_props (s : StateStore) (k : Key) : Except Err (List PropDesc) :=
  StateAccessFrame.get_props s k

/-- RenderFrame.init_props is not overridden in the source: inherited
pass-through. -/
def init_props (s : StateStore) (entries : List PropEntry) :
    Except Err StateStore :=
  StateAccessFrame.init_props s entries

/-- RenderFrame.prop_changed : returns the answer of the outgoing-diff
collaborator ui_prop_state.prop_changed, here an oracle function. -/
def prop_changed (ui_prop_state : PropDesc → Bool) (prop : PropDesc) : Bool :=
  ui_prop_state prop

end RenderFrame

/-! ## Helper lemmas -/

/-- Every frame kind is an instance of its own class. -/
theorem isinstance_self (k : FrameClass) : isinstance k k = true := by
  cases k <;> rfl

/-- Characterization of a successful descriptor lookup. -/
theorem get_prop_ok_iff {s : StateStore} {k : Key} {p : PropName} {d : PropDesc} :
    StateStore.get_prop s k p = Except.ok d ↔
      ∃ e, StateStore.lookupEntry s k p = Option.some e ∧ e.desc = d := by
  unfold StateStore.get_prop
  cases h : StateStore.lookupEntry s k p <;> simp

/-- Sequencing after a successful step. -/
@[simp]
theorem except_bind_ok {E A B : Type} (a : A) (f : A → Except E B) :
    (Except.ok a : Except E A) >>= f = f a := rfl

/-- Sequencing after a raising step propagates the exception. -/
@[simp]
theorem except_bind_error {E A B : Type} (e : E) (f : A → Except E B) :
    (Except.error e : Except E A) >>= f = Except.error e := rfl

/-! ## The claims -/

/-- C1: for every AppRunnerFrame f and set deps of (key, prop) pairs,
filter_dirty_deps deps equals the intersection of deps with the union
of mutations and prev_frame_mutations, and deps_are_dirty deps is true
if and only if that intersection is non-empty. -/
theorem filter_dirty_deps_law (f : AppRunnerFrame) (deps : Finset KP) :
    f.filter_dirty_deps deps = deps ∩ (f.mutations ∪ f.prev_frame_mutations) ∧
    (f.deps_are_dirty deps = true ↔
      (deps ∩ (f.mutations ∪ f.prev_frame_mutations)).Nonempty) := by
  constructor
  · exact Finset.inter_comm _ _
  · rw [AppRunnerFrame.deps_are_dirty, decide_eq_true_iff, Finset.card_pos,
      AppRunnerFrame.filter_dirty_deps, Finset.inter_comm]

/-- C2: for frames A and B of unrelated variants, after entering A
then B, current at the class of B returns B while current at the class
of A fails with WrongFrame; and the bracket around B restores the
previously current frame A on every outcome of the body, a raising one
included, so current at the class of A succeeds again. -/
theorem frame_nesting_and_restoration {E X : Type} (A B : Frame) (slot0 : Slot)
    (r : Except E X) (hUnrel : isinstance B.kind A.kind = false) :
    (A.enter slot0).1 = Option.some A ∧
    Frame.current B.kind (B.enter (Option.some A)).1 = Except.ok B ∧
    Frame.current A.kind (B.enter (Option.some A)).1 =
      Except.error Err.WrongFrame ∧
    withFrame B (Option.some A) (fun _ => r) = (r, Option.some A) ∧
    Frame.current A.kind (Option.some A) = Except.ok A := by
  refine ⟨rfl, ?_, ?_, rfl, ?_⟩
  · simp [Frame.enter, Frame.current, isinstance_self]
  · simp [Frame.enter, Frame.current, hUnrel]
  · simp [Frame.current, isinstance_self]

/-- Witness for C2 at concrete frames: A a TaskFrame, B a RenderFrame,
with a raising body. -/
theorem frame_nesting_and_restoration_witness :
    isinstance FrameClass.render FrameClass.task = false ∧
    (Frame.current FrameClass.render
        ((Frame.enter ⟨FrameClass.render, 1⟩ (Option.some ⟨FrameClass.task, 0⟩)).1) =
      Except.ok ⟨FrameClass.render, 1⟩ ∧
    withFrame ⟨FrameClass.render, 1⟩ (Option.some ⟨FrameClass.task, 0⟩)
        (fun _ => (Except.error 7 : Except Nat Unit)) =
      (Except.error 7, Option.some ⟨FrameClass.task, 0⟩)) :=
  ⟨by decide,
   (frame_nesting_and_restoration ⟨FrameClass.task, 0⟩ ⟨FrameClass.render, 1⟩
      Option.none (Except.error 7 : Except Nat Unit) (by decide)).2.1,
   (frame_nesting_and_restoration ⟨FrameClass.task, 0⟩ ⟨FrameClass.render, 1⟩
      Option.none (Except.error 7 : Except Nat Unit) (by decide)).2.2.2.1⟩

/-- C3: Frame.current fails with NoActiveFrame when the slot holds no
frame, fails with WrongFrame when the active frame is not an instance
of the requested class or one of its refinements, and otherwise
returns the active frame unchanged. -/
theorem current_lookup_spec (cls : FrameClass) (slot : Slot) :
    (slot = Option.none →
      Frame.current cls slot = Except.error Err.NoActiveFrame) ∧
    (∀ f, slot = Option.some f → isinstance f.kind cls = false →
      Frame.current cls slot = Except.error Err.WrongFrame) ∧
    (∀ f, slot = Option.some f → isinstance f.kind cls = true →
      Frame.current cls slot = Except.ok f) := by
  refine ⟨?_, ?_, ?_⟩
  · rintro rfl; rfl
  · rintro f rfl h; simp [Frame.current, h]
  · rintro f rfl h; simp [Frame.current, h]

/-- Witness for C3: the three cases of current at concrete inputs,
with the refinement case exercised through the StateAccessFrame
superclass. -/
theorem current_lookup_spec_witness :
    Frame.current FrameClass.task Option.none =
      Except.error Err.NoActiveFrame ∧
    Frame.current FrameClass.task (Option.some ⟨FrameClass.render, 0⟩) =
      Except.error Err.WrongFrame ∧
    Frame.current FrameClass.stateAccess (Option.some ⟨FrameClass.render, 0⟩) =
      Except.ok ⟨FrameClass.render, 0⟩ :=
  ⟨(current_lookup_spec FrameClass.task Option.none).1 rfl,
   (current_lookup_spec FrameClass.task
      (Option.some ⟨FrameClass.render, 0⟩)).2.1 ⟨FrameClass.render, 0⟩ rfl (by decide),
   (current_lookup_spec FrameClass.stateAccess
      (Option.some ⟨FrameClass.render, 0⟩)).2.2 ⟨FrameClass.render, 0⟩ rfl (by decide)⟩

/-- C4: in a StateAccessFrame, update_state fails with IllegalMutation
whenever the descriptor has is_event_prop or backend_immutable set,
without delegating the write (the raising call returns no updated
store, so no mutation gets recorded); reset_state fails with
IllegalReset whenever is_event_prop is set; and in ResetUIEventsFrame,
reset_state succeeds on exactly the event properties and fails with
IllegalReset on every non-event property. -/
theorem event_prop_guard (s : StateStore) (k : Key) (p : PropName) (v : Value)
    (d : PropDesc) (hd : StateStore.get_prop s k p = Except.ok d) :
    (d.is_event_prop = true ∨ d.backend_immutable = true →
      StateAccessFrame.update_state s k p v = Except.error Err.IllegalMutation) ∧
    (d.is_event_prop = true →
      StateAccessFrame.reset_state s k p = Except.error Err.IllegalReset) ∧
    (d.is_event_prop = true →
      ∃ s', ResetUIEventsFrame.reset_state s k p =
        Except.ok (RetVal.none, s')) ∧
    (d.is_event_prop = false →
      ResetUIEventsFrame.reset_state s k p = Except.error Err.IllegalReset) := by
  obtain ⟨e, he, rfl⟩ := get_prop_ok_iff.mp hd
  refine ⟨?_, ?_, ?_, ?_⟩
  · intro h
    rcases h with h | h <;>
      simp [StateAccessFrame.update_state, StateStore.get_prop, he, h]
  · intro h
    simp [StateAccessFrame.reset_state, StateStore.get_prop, he, h]
  · intro h
    exact ⟨StateStore.setValue s k p e.defaultValue,
      by simp [ResetUIEventsFrame.reset_state, StateStore.get_prop,
        StateStore._reset, he, h]⟩
  · intro h
    simp [ResetUIEventsFrame.reset_state, StateStore.get_prop, he, h]

/-- Witness for C4: a store with one event prop and one
backend-immutable prop, exercising all four conjuncts. -/
theorem event_prop_guard_witness :
    (StateAccessFrame.update_state
        [⟨⟨0, 0, true, false⟩, 3, 0⟩] 0 0 5 = Except.error Err.IllegalMutation) ∧
    (StateAccessFrame.update_state
        [⟨⟨0, 0, false, true⟩, 3, 0⟩] 0 0 5 = Except.error Err.IllegalMutation) ∧
    (StateAccessFrame.reset_state
        [⟨⟨0, 0, true, false⟩, 3, 0⟩] 0 0 = Except.error Err.IllegalReset) ∧
    (∃ s', ResetUIEventsFrame.reset_state
        [⟨⟨0, 0, true, false⟩, 3, 0⟩] 0 0 = Except.ok (RetVal.none, s')) ∧
    (ResetUIEventsFrame.reset_state
        [⟨⟨0, 0, false, false⟩, 3, 0⟩] 0 0 = Except.error Err.IllegalReset) :=
  ⟨(event_prop_guard [⟨⟨0, 0, true, false⟩, 3, 0⟩] 0 0 5 ⟨0, 0, true, false⟩
      rfl).1 (Or.inl rfl),
   (event_prop_guard [⟨⟨0, 0, false, true⟩, 3, 0⟩] 0 0 5 ⟨0, 0, false, true⟩
      rfl).1 (Or.inr rfl),
   (event_prop_guard [⟨⟨0, 0, true, false⟩, 3, 0⟩] 0 0 0 ⟨0, 0, true, false⟩
      rfl).2.1 rfl,
   (event_prop_guard [⟨⟨0, 0, true, false⟩, 3, 0⟩] 0 0 0 ⟨0, 0, true, false⟩
      rfl).2.2.1 rfl,
   (event_prop_guard [⟨⟨0, 0, false, false⟩, 3, 0⟩] 0 0 0 ⟨0, 0, false, false⟩
      rfl).2.2.2 rfl⟩

/-- C5: spec-modelled store lookup; UIUpdatesFrame.update_state on a
nonexistent key returns normally with the frame bookkeeping, the
store, and the diff-push list all untouched, while reset_state on the
same nonexistent key fails with UnknownProperty. -/
theorem stale_key_tolerance (f : UIUpdatesFrame) (s : StateStore) (k : Key)
    (p : PropName) (v : Value)
    (h : StateStore.lookupEntry s k p = Option.none) :
    UIUpdatesFrame.update_state f s k p v = Except.ok (f, s, []) ∧
    UIUpdatesFrame.reset_state f s k p = Except.error Err.UnknownProperty := by
  constructor
  · simp [UIUpdatesFrame.update_state, StateStore.get_prop, h]
  · simp [UIUpdatesFrame.reset_state, StateStore.get_prop, h]

/-- Witness for C5: the empty store has no key 0. -/
theorem stale_key_tolerance_witness :
    UIUpdatesFrame.update_state UIUpdatesFrame.init [] 0 0 1 =
      Except.ok (UIUpdatesFrame.init, [], []) ∧
    UIUpdatesFrame.reset_state UIUpdatesFrame.init [] 0 0 =
      Except.error Err.UnknownProperty :=
  stale_key_tolerance UIUpdatesFrame.init [] 0 0 1 rfl

/-- C8: spec-modelled store delegation; in a UIUpdatesFrame, an
update_state or reset_state that actually changes the store adds the
pair to mutations, adds it to event_mutations exactly when the
property is an event prop, and pushes the descriptor to the diff
collaborator; when the store reports no change, none of the three
effects occur. -/
theorem ui_updates_mutation_recording (f : UIUpdatesFrame) (s : StateStore)
    (k : Key) (p : PropName) (v : Value) (e : PropEntry)
    (he : StateStore.lookupEntry s k p = Option.some e) :
    (e.value ≠ v →
      UIUpdatesFrame.update_state f s k p v =
        Except.ok
          ({ mutations := insert (k, p) f.mutations,
             event_mutations :=
               if e.desc.is_event_prop then insert (k, p) f.event_mutations
               else f.event_mutations },
           StateStore.setValue s k p v, [e.desc])) ∧
    (e.value = v →
      UIUpdatesFrame.update_state f s k p v =
        Except.ok (f, StateStore.setValue s k p v, [])) ∧
    (e.value ≠ e.defaultValue →
      UIUpdatesFrame.reset_state f s k p =
        Except.ok
          ({ mutations := insert (k, p) f.mutations,
             event_mutations :=
               if e.desc.is_event_prop then insert (k, p) f.event_mutations
               else f.event_mutations },
           StateStore.setValue s k p e.defaultValue, [e.desc])) ∧
    (e.value = e.defaultValue →
      UIUpdatesFrame.reset_state f s k p =
        Except.ok (f, StateStore.setValue s k p e.defaultValue, [])) := by
  refine ⟨?_, ?_, ?_, ?_⟩ <;> intro h <;>
    simp [UIUpdatesFrame.update_state, UIUpdatesFrame.reset_state,
      StateStore.get_prop, StateStore._update, StateStore._reset, he, h]

/-- Witness for C8: a changing write on an event prop records the pair
in both sets and pushes the descriptor; a no-op write records
nothing. -/
theorem ui_updates_mutation_recording_witness :
    UIUpdatesFrame.update_state UIUpdatesFrame.init
        [⟨⟨0, 0, true, false⟩, 3, 0⟩] 0 0 5 =
      Except.ok
        ({ mutations := insert (0, 0) (∅ : Finset KP),
           event_mutations := insert (0, 0) (∅ : Finset KP) },
         [⟨⟨0, 0, true, false⟩, 5, 0⟩], [⟨0, 0, true, false⟩]) ∧
    UIUpdatesFrame.update_state UIUpdatesFrame.init
        [⟨⟨0, 0, true, false⟩, 3, 0⟩] 0 0 3 =
      Except.ok (UIUpdatesFrame.init, [⟨⟨0, 0, true, false⟩, 3, 0⟩], []) :=
  ⟨by
    have h := (ui_updates_mutation_recording UIUpdatesFrame.init
      [⟨⟨0, 0, true, false⟩, 3, 0⟩] 0 0 5 ⟨⟨0, 0, true, false⟩, 3, 0⟩ rfl).1
      (by decide)
    simpa [UIUpdatesFrame.init, StateStore.setValue] using h,
   (ui_updates_mutation_recording UIUpdatesFrame.init
      [⟨⟨0, 0, true, false⟩, 3, 0⟩] 0 0 3 ⟨⟨0, 0, true, false⟩, 3, 0⟩ rfl).2.1 rfl⟩

/-- C9: spec-modelled store delegation; in a TaskFrame, an update_state
or reset_state whose delegation reports an actual change enqueues
exactly one call to enqueue_task_mutations carrying exactly the single
(key, prop) pair; a no-change call enqueues nothing, and a call failing
a legality check raises before reaching the queue. -/
theorem task_frame_enqueue (s : StateStore) (k : Key) (p : PropName) (v : Value)
    (e : PropEntry) (he : StateStore.lookupEntry s k p = Option.some e) :
    (e.desc.is_event_prop = false → e.desc.backend_immutable = false →
      TaskFrame.update_state s k p v =
        Except.ok (RetVal.none, StateStore.setValue s k p v,
          if e.value ≠ v then [[(k, p)]] else [])) ∧
    (e.desc.is_event_prop = false →
      TaskFrame.reset_state s k p =
        Except.ok (RetVal.none, StateStore.setValue s k p e.defaultValue,
          if e.value ≠ e.defaultValue then [[(k, p)]] else [])) ∧
    (e.desc.is_event_prop = true ∨ e.desc.backend_immutable = true →
      TaskFrame.update_state s k p v = Except.error Err.IllegalMutation) ∧
    (e.desc.is_event_prop = true →
      TaskFrame.reset_state s k p = Except.error Err.IllegalReset) := by
  refine ⟨?_, ?_, ?_, ?_⟩
  · intro h1 h2
    by_cases hv : e.value = v <;>
      simp [TaskFrame.update_state, StateAccessFrame.update_state,
        StateStore.get_prop, StateStore._update, he, h1, h2, RetVal.truthy, hv]
  · intro h1
    by_cases hv : e.value = e.defaultValue <;>
      simp [TaskFrame.reset_state, StateAccessFrame.reset_state,
        StateStore.get_prop, StateStore._reset, he, h1, RetVal.truthy, hv]
  · intro h
    rcases h with h | h <;>
      simp [TaskFrame.update_state, StateAccessFrame.update_state,
        StateStore.get_prop, he, h]
  · intro h
    simp [TaskFrame.reset_state, StateAccessFrame.reset_state,
      StateStore.get_prop, he, h]

/-- Witness for C9: a changing write enqueues the single pair, a no-op
write enqueues nothing, and an event-prop write raises. -/
theorem task_frame_enqueue_witness :
    TaskFrame.update_state [⟨⟨0, 0, false, false⟩, 3, 0⟩] 0 0 5 =
      Except.ok (RetVal.none, [⟨⟨0, 0, false, false⟩, 5, 0⟩], [[(0, 0)]]) ∧
    TaskFrame.update_state [⟨⟨0, 0, false, false⟩, 3, 0⟩] 0 0 3 =
      Except.ok (RetVal.none, [⟨⟨0, 0, false, false⟩, 3, 0⟩], []) ∧
    TaskFrame.update_state [⟨⟨0, 0, true, false⟩, 3, 0⟩] 0 0 5 =
      Except.error Err.IllegalMutation :=
  ⟨by
    have h := (task_frame_enqueue [⟨⟨0, 0, false, false⟩, 3, 0⟩] 0 0 5
      ⟨⟨0, 0, false, false⟩, 3, 0⟩ rfl).1 rfl rfl
    simpa [StateStore.setValue] using h,
   by
    have h := (task_frame_enqueue [⟨⟨0, 0, false, false⟩, 3, 0⟩] 0 0 3
      ⟨⟨0, 0, false, false⟩, 3, 0⟩ rfl).1 rfl rfl
    simpa [StateStore.setValue] using h,
   (task_frame_enqueue [⟨⟨0, 0, true, false⟩, 3, 0⟩] 0 0 5
      ⟨⟨0, 0, true, false⟩, 3, 0⟩ rfl).2.2.1 (Or.inl rfl)⟩

/-- C10: UIUpdatesFrame performs no event-prop or backend-immutable
legality check: on any existing property, whatever its flags, both
update_state and reset_state delegate straight to the store and
succeed, never raising IllegalMutation or IllegalReset, unlike the
base StateAccessFrame operations on the same store. -/
theorem ui_updates_no_legality_check (f : UIUpdatesFrame) (s : StateStore)
    (k : Key) (p : PropName) (v : Value) (e : PropEntry)
    (he : StateStore.lookupEntry s k p = Option.some e) :
    (∃ out, UIUpdatesFrame.update_state f s k p v = Except.ok out) ∧
    (∃ out, UIUpdatesFrame.reset_state f s k p = Except.ok out) ∧
    (e.desc.is_event_prop = true ∨ e.desc.backend_immutable = true →
      StateAccessFrame.update_state s k p v = Except.error Err.IllegalMutation) ∧
    (e.desc.is_event_prop = true →
      StateAccessFrame.reset_state s k p = Except.error Err.IllegalReset) := by
  refine ⟨?_, ?_, ?_, ?_⟩
  · by_cases hv : e.value = v
    · exact ⟨(f, StateStore.setValue s k p v, []), by
        simp [UIUpdatesFrame.update_state, StateStore.get_prop,
          StateStore._update, he, hv]⟩
    · exact ⟨({ mutations := insert (k, p) f.mutations,
                event_mutations :=
                  if e.desc.is_event_prop then insert (k, p) f.event_mutations
                  else f.event_mutations },
        StateStore.setValue s k p v, [e.desc]), by
        simp [UIUpdatesFrame.update_state, StateStore.get_prop,
          StateStore._update, he, hv]⟩
  · by_cases hv : e.value = e.defaultValue
    · exact ⟨(f, StateStore.setValue s k p e.defaultValue, []), by
        simp [UIUpdatesFrame.reset_state, StateStore.get_prop,
          StateStore._reset, he, hv]⟩
    · exact ⟨({ mutations := insert (k, p) f.mutations,
                event_mutations :=
                  if e.desc.is_event_prop then insert (k, p) f.event_mutations
                  else f.event_mutations },
        StateStore.setValue s k p e.defaultValue, [e.desc]), by
        simp [UIUpdatesFrame.reset_state, StateStore.get_prop,
          StateStore._reset, he, hv]⟩
  · intro h
    rcases h with h | h <;>
      simp [StateAccessFrame.update_state, StateStore.get_prop, he, h]
  · intro h
    simp [StateAccessFrame.reset_state, StateStore.get_prop, he, h]

/-- Witness for C10: on an event prop, the UI-updates write succeeds
while the base frame write raises IllegalMutation. -/
theorem ui_updates_no_legality_check_witness :
    (∃ out, UIUpdatesFrame.update_state UIUpdatesFrame.init
        [⟨⟨0, 0, true, true⟩, 3, 0⟩] 0 0 5 = Except.ok out) ∧
    (∃ out, UIUpdatesFrame.reset_state UIUpdatesFrame.init
        [⟨⟨0, 0, true, true⟩, 3, 0⟩] 0 0 = Except.ok out) ∧
    StateAccessFrame.update_state [⟨⟨0, 0, true, true⟩, 3, 0⟩] 0 0 5 =
      Except.error Err.IllegalMutation :=
  ⟨(ui_updates_no_legality_check UIUpdatesFrame.init
      [⟨⟨0, 0, true, true⟩, 3, 0⟩] 0 0 5 ⟨⟨0, 0, true, true⟩, 3, 0⟩ rfl).1,
   (ui_updates_no_legality_check UIUpdatesFrame.init
      [⟨⟨0, 0, true, true⟩, 3, 0⟩] 0 0 5 ⟨⟨0, 0, true, true⟩, 3, 0⟩ rfl).2.1,
   (ui_updates_no_legality_check UIUpdatesFrame.init
      [⟨⟨0, 0, true, true⟩, 3, 0⟩] 0 0 5 ⟨⟨0, 0, true, true⟩, 3, 0⟩ rfl).2.2.1
     (Or.inl rfl)⟩

/-- C6 counterexample: the claim says every StateAccessFrame operation,
init_props, has_prop and get_props included, fails with AccessDenied in
a RenderFrame; but those three are not overridden in the source, so on
a concrete store has_prop succeeds with a value rather than failing. -/
theorem render_frame_passthrough_counterexample :
    RenderFrame.has_prop [⟨⟨0, 0, false, false⟩, 3, 0⟩] 0 0 = Except.ok true ∧
    RenderFrame.has_prop [⟨⟨0, 0, false, false⟩, 3, 0⟩] 0 0 ≠
      Except.error Err.AccessDenied := by
  refine ⟨rfl, ?_⟩
  intro h
  rw [show RenderFrame.has_prop [⟨⟨0, 0, false, false⟩, 3, 0⟩] 0 0 =
    Except.ok true from rfl] at h
  exact Except.noConfusion h

/-- C6 amended: in a RenderFrame the overridden operations get_state,
update_state, reset_state and trigger_event all fail with AccessDenied;
init_props, has_prop and get_props are inherited pass-throughs of the
base frame; and prop_changed returns the outgoing-diff collaborator
verdict on the property unchanged. -/
theorem render_frame_access (s : StateStore) (k : Key) (p : PropName)
    (v : Value) (d : PropDesc) (vv : Value) (ui_prop_state : PropDesc → Bool)
    (entries : List PropEntry) :
    RenderFrame.get_state s k p = Except.error Err.AccessDenied ∧
    RenderFrame.update_state s k p v = Except.error Err.AccessDenied ∧
    RenderFrame.reset_state s k p = Except.error Err.AccessDenied ∧
    RenderFrame.trigger_event d vv = Except.error Err.AccessDenied ∧
    RenderFrame.has_prop s k p = StateAccessFrame.has_prop s k p ∧
    RenderFrame.get_props s k = StateAccessFrame.get_props s k ∧
    RenderFrame.init_props s entries = StateAccessFrame.init_props s entries ∧
    RenderFrame.prop_changed ui_prop_state d = ui_prop_state d :=
  ⟨rfl, rfl, rfl, rfl, rfl, rfl, rfl, rfl⟩

/-- C7 counterexample: the claim says AppRunnerFrame and TaskFrame
update_state return whether a change occurred; on a concrete store
where the write does change the value (the store delegation reports
true), both overrides return None, which is not the boolean true. -/
theorem update_state_return_counterexample :
    StateStore._update [⟨⟨0, 0, false, false⟩, 5, 0⟩] 0 0 6 =
      Except.ok (true, [⟨⟨0, 0, false, false⟩, 6, 0⟩]) ∧
    (AppRunnerFrame.update_state (AppRunnerFrame.init ∅)
        [⟨⟨0, 0, false, false⟩, 5, 0⟩] 0 0 6).map (fun r => r.1) =
      Except.ok RetVal.none ∧
    (TaskFrame.update_state [⟨⟨0, 0, false, false⟩, 5, 0⟩] 0 0 6).map
        (fun r => r.1) = Except.ok RetVal.none ∧
    RetVal.none ≠ RetVal.bool true :=
  ⟨rfl, rfl, rfl, by decide⟩

/-- C7 amended: the base StateAccessFrame.update_state on a legal
property returns the store verdict on whether the value differed from
the current one, while the AppRunnerFrame and TaskFrame overrides
discard it and return None; writing the value a property already holds
reports no change, leaves the AppRunnerFrame mutations set untouched,
enqueues no task mutation and pushes nothing to the diff
collaborator. -/
theorem update_state_change_report (fA : AppRunnerFrame) (fU : UIUpdatesFrame)
    (s : StateStore) (k : Key) (p : PropName) (v : Value) (e : PropEntry)
    (he : StateStore.lookupEntry s k p = Option.some e)
    (hev : e.desc.is_event_prop = false)
    (him : e.desc.backend_immutable = false) :
    StateAccessFrame.update_state s k p v =
      Except.ok (RetVal.bool (decide (e.value ≠ v)),
        StateStore.setValue s k p v) ∧
    (e.value = v →
      AppRunnerFrame.update_state fA s k p v =
        Except.ok (RetVal.none, fA, StateStore.setValue s k p v) ∧
      TaskFrame.update_state s k p v =
        Except.ok (RetVal.none, StateStore.setValue s k p v, []) ∧
      UIUpdatesFrame.update_state fU s k p v =
        Except.ok (fU, StateStore.setValue s k p v, [])) := by
  constructor
  · simp [StateAccessFrame.update_state, StateStore.get_prop,
      StateStore._update, he, hev, him]
  · intro hv
    refine ⟨?_, ?_, ?_⟩
    · simp [AppRunnerFrame.update_state, StateAccessFrame.update_state,
        StateStore.get_prop, StateStore._update, he, hev, him, hv,
        RetVal.truthy]
    · simp [TaskFrame.update_state, StateAccessFrame.update_state,
        StateStore.get_prop, StateStore._update, he, hev, him, hv,
        RetVal.truthy]
    · simp [UIUpdatesFrame.update_state, StateStore.get_prop,
        StateStore._update, he, hv]

/-- Witness for C7: a changing write reports true through the base
frame, and a no-op write of the held value reports false and records
nothing anywhere. -/
theorem update_state_change_report_witness :
    StateAccessFrame.update_state [⟨⟨0, 0, false, false⟩, 5, 0⟩] 0 0 6 =
      Except.ok (RetVal.bool true, [⟨⟨0, 0, false, false⟩, 6, 0⟩]) ∧
    StateAccessFrame.update_state [⟨⟨0, 0, false, false⟩, 5, 0⟩] 0 0 5 =
      Except.ok (RetVal.bool false, [⟨⟨0, 0, false, false⟩, 5, 0⟩]) ∧
    AppRunnerFrame.update_state (AppRunnerFrame.init ∅)
        [⟨⟨0, 0, false, false⟩, 5, 0⟩] 0 0 5 =
      Except.ok (RetVal.none, AppRunnerFrame.init ∅,
        [⟨⟨0, 0, false, false⟩, 5, 0⟩]) ∧
    TaskFrame.update_state [⟨⟨0, 0, false, false⟩, 5, 0⟩] 0 0 5 =
      Except.ok (RetVal.none, [⟨⟨0, 0, false, false⟩, 5, 0⟩], []) :=
  ⟨by
    have h := (update_state_change_report (AppRunnerFrame.init ∅)
      UIUpdatesFrame.init [⟨⟨0, 0, false, false⟩, 5, 0⟩] 0 0 6
      ⟨⟨0, 0, false, false⟩, 5, 0⟩ rfl rfl rfl).1
    simpa [StateStore.setValue] using h,
   by
    have h := (update_state_change_report (AppRunnerFrame.init ∅)
      UIUpdatesFrame.init [⟨⟨0, 0, false, false⟩, 5, 0⟩] 0 0 5
      ⟨⟨0, 0, false, false⟩, 5, 0⟩ rfl rfl rfl).1
    simpa [StateStore.setValue] using h,
   by
    have h := ((update_state_change_report (AppRunnerFrame.init ∅)
      UIUpdatesFrame.init [⟨⟨0, 0, false, false⟩, 5, 0⟩] 0 0 5
      ⟨⟨0, 0, false, false⟩, 5, 0⟩ rfl rfl rfl).2 rfl).1
    simpa [StateStore.setValue] using h,
   by
    have h := ((update_state_change_report (AppRunnerFrame.init ∅)
      UIUpdatesFrame.init [⟨⟨0, 0, false, false⟩, 5, 0⟩] 0 0 5
      ⟨⟨0, 0, false, false⟩, 5, 0⟩ rfl rfl rfl).2 rfl).2.1
    simpa [StateStore.setValue] using h⟩

end Hyperdiv
